import Mathlib

/-
Verification development for the elec-calc repository
(src/electricity_calculator.py), a personal electricity-usage estimator
and tracker.

Modelling conventions:
* Python floats are modelled as exact rationals (ℚ).  All coefficients in
  the source are short decimal literals and the spec treats the arithmetic
  as exact decimal arithmetic ("no rounding internally").
* Calendar timestamps are modelled as rational numbers of days since an
  epoch (the integer part is the calendar day, the fractional part the
  time of day); a stored ISO date string "YYYY-MM-DD" parses to the
  integer day number of its midnight, mirroring pandas' to_datetime.
* Python's str.lower is modelled by per-character lowercasing (pyLower
  below); the two agree on the ASCII strings appearing in this program.
* Dict-shaped records of the source become fixed-field structures, and
  the Streamlit session state becomes an explicit state value.
-/

set_option maxRecDepth 4000
set_option maxHeartbeats 1000000

namespace ElecCalc

/-! ## Data model -/

/-- The per-save user profile dictionary built in the save handler
(source lines 156-169). -/
structure UserData where
  name : String
  age : ℕ
  city : String
  area : String
  flat_tenement : String
  facility : String
  ac : Bool
  fridge : Bool
  washing_machine : Bool
  tv : Bool
  microwave : Bool
  water_heater : Bool
deriving DecidableEq

/-- One saved usage record, as built by save_daily_usage
(source lines 66-71).  The date is the ISO "YYYY-MM-DD" string and the
timestamp the isoformat string of the save instant. -/
structure UsageEntry where
  date : String
  total_energy : ℚ
  user_data : UserData
  timestamp : String
deriving DecidableEq

/-! ## Estimator (source lines 23-60 and 140-151) -/

/-- Python's str.lower, modelled character by character (the strings this
program compares are ASCII, where per-character lowercasing is exactly
str.lower). -/
def pyLower (s : String) : String := String.mk (s.data.map Char.toLower)

/-- The base-consumption dictionary of calculate_base_energy
(source lines 25-29). -/
def base_consumption : List (String × ℚ) :=
  [("1bhk", 2 * 0.4 + 2 * 0.8),
   ("2bhk", 3 * 0.4 + 3 * 0.8),
   ("3bhk", 4 * 0.4 + 4 * 0.8)]

/-- calculate_base_energy (source lines 23-30):
base_consumption.get(facility.lower(), 0). -/
def calculate_base_energy (facility : String) : ℚ :=
  ((base_consumption.find? (fun p => p.1 = pyLower facility)).map Prod.snd).getD 0

/-- calculate_appliance_energy (source lines 32-60): a running total with
one conditional increment per appliance flag. -/
def calculate_appliance_energy
    (ac fridge washing_machine tv microwave water_heater : Bool) : ℚ :=
  let c0 : ℚ := 0
  let c1 := if ac then c0 + 1.5 * 8 else c0
  let c2 := if fridge then c1 + 0.15 * 24 else c1
  let c3 := if washing_machine then c2 + 2 else c2
  let c4 := if tv then c3 + 0.15 * 6 else c3
  let c5 := if microwave then c4 + 1.2 * 0.5 else c4
  if water_heater then c5 + 2 * 2 else c5

/-- The three housing types offered by the selectbox (source line 119). -/
inductive HousingType where
  | OneBHK
  | TwoBHK
  | ThreeBHK
deriving DecidableEq

/-- The exact selectbox label for each housing type (source line 119). -/
def housingStr : HousingType → String
  | .OneBHK => "1BHK"
  | .TwoBHK => "2BHK"
  | .ThreeBHK => "3BHK"

/-- The six appliance checkboxes (source lines 129-134). -/
structure ApplianceFlags where
  ac : Bool
  fridge : Bool
  washing_machine : Bool
  tv : Bool
  microwave : Bool
  water_heater : Bool
deriving DecidableEq

/-- All appliance flags off. -/
def allOff : ApplianceFlags := ⟨false, false, false, false, false, false⟩

/-- total_energy = base_energy + appliance_energy (source lines 140-142). -/
def estimateDailyEnergy (housing : HousingType) (f : ApplianceFlags) : ℚ :=
  calculate_base_energy (housingStr housing) +
    calculate_appliance_energy f.ac f.fridge f.washing_machine f.tv f.microwave
      f.water_heater

/-- Daily cost as displayed (source line 147): total_energy * 6. -/
def dailyCost (total_energy : ℚ) : ℚ := total_energy * 6

/-- monthly_cost (source line 150): total_energy * 30 * 6. -/
def monthlyCost (total_energy : ℚ) : ℚ := total_energy * 30 * 6

/-! ## Spec-side estimator vocabulary

These definitions follow the wording of the spec (its Housing and
appliance tables) and are compared against the source translation above. -/

/-- The fixed appliance set of the spec's data model. -/
inductive Appliance where
  | AC
  | Fridge
  | WashingMachine
  | TV
  | Microwave
  | WaterHeater
deriving DecidableEq

/-- The spec's fixed per-appliance daily contribution (kWh). -/
def contribution : Appliance → ℚ
  | .AC => 12.0
  | .Fridge => 3.6
  | .WashingMachine => 2.0
  | .TV => 0.9
  | .Microwave => 0.6
  | .WaterHeater => 4.0

/-- The spec's fixed base-load constant per housing type (kWh/day). -/
def baseConst : HousingType → ℚ
  | .OneBHK => 2.4
  | .TwoBHK => 3.6
  | .ThreeBHK => 4.8

/-- The flag stored for a given appliance. -/
def flagOf (f : ApplianceFlags) : Appliance → Bool
  | .AC => f.ac
  | .Fridge => f.fridge
  | .WashingMachine => f.washing_machine
  | .TV => f.tv
  | .Microwave => f.microwave
  | .WaterHeater => f.water_heater

/-- The appliance enumeration in the order they appear in the source. -/
def applianceOrder : List Appliance :=
  [.AC, .Fridge, .WashingMachine, .TV, .Microwave, .WaterHeater]

/-- Contributions of exactly the appliances whose flag is true. -/
def selectedContribs (f : ApplianceFlags) : List ℚ :=
  (applianceOrder.filter (flagOf f)).map contribution

theorem estimate_linear (housing : HousingType) (f : ApplianceFlags) :
    estimateDailyEnergy housing f = baseConst housing + (selectedContribs f).sum := by
  obtain ⟨a, b, c, d, e, g⟩ := f
  cases housing <;> cases a <;> cases b <;> cases c <;> cases d <;> cases e <;>
    cases g <;> with_unfolding_all decide

/-- C1: for every housing type in {OneBHK, TwoBHK, ThreeBHK} and every
subset of the six appliance flags, the estimated daily energy equals
base(housing) plus the sum of the fixed contributions of the appliances
whose flag is true (bases 2.4 / 3.6 / 4.8, contributions AC=12.0,
Fridge=3.6, WashingMachine=2.0, TV=0.9, Microwave=0.6, WaterHeater=4.0);
with no appliances selected the result is exactly the base constant, and
the contribution sum is order-independent. -/
theorem C1_estimator_linear (housing : HousingType) (f : ApplianceFlags) :
    estimateDailyEnergy housing f = baseConst housing + (selectedContribs f).sum
    ∧ estimateDailyEnergy housing allOff = baseConst housing
    ∧ ∀ l : List ℚ, l.Perm (selectedContribs f) →
        estimateDailyEnergy housing f = baseConst housing + l.sum := by
  refine ⟨estimate_linear housing f, ?_, ?_⟩
  · rw [estimate_linear housing allOff]
    simp [selectedContribs, allOff, applianceOrder, flagOf]
  · intro l hl
    rw [estimate_linear housing f, hl.sum_eq]

/-- Witness for C1 at housing=TwoBHK with AC and Fridge on, applying the
order-independence conjunct to the reversed contribution list. -/
theorem C1_estimator_linear_witness :
    estimateDailyEnergy .TwoBHK ⟨true, true, false, false, false, false⟩ =
      baseConst .TwoBHK + ([3.6, 12.0] : List ℚ).sum :=
  (C1_estimator_linear .TwoBHK ⟨true, true, false, false, false, false⟩).2.2
    [3.6, 12.0] (by with_unfolding_all decide)

/-- C5: the daily cost is energy × 6.0 and the monthly cost is
energy × 30 × 6.0; for housing=TwoBHK with only AC and Fridge enabled the
daily energy is 19.2, the daily cost 115.2 and the monthly cost 3456.0. -/
theorem C5_cost_formulas :
    (∀ e : ℚ, dailyCost e = e * 6 ∧ monthlyCost e = e * 30 * 6)
    ∧ estimateDailyEnergy .TwoBHK ⟨true, true, false, false, false, false⟩ = 19.2
    ∧ dailyCost (estimateDailyEnergy .TwoBHK ⟨true, true, false, false, false, false⟩)
        = 115.2
    ∧ monthlyCost (estimateDailyEnergy .TwoBHK ⟨true, true, false, false, false, false⟩)
        = 3456 := by
  have h192 : estimateDailyEnergy .TwoBHK ⟨true, true, false, false, false, false⟩
      = 19.2 := by with_unfolding_all decide
  refine ⟨fun _ => ⟨rfl, rfl⟩, h192, ?_, ?_⟩
  · rw [h192]; norm_num [dailyCost]
  · rw [h192]; norm_num [monthlyCost]

/-- C6: any housing-type string that is not (case-insensitively) one of
the three recognized keys gets base energy 0, and the lookup is total
(no error path exists). -/
theorem C6_unknown_housing_zero (s : String)
    (h : pyLower s ≠ "1bhk" ∧ pyLower s ≠ "2bhk" ∧ pyLower s ≠ "3bhk") :
    calculate_base_energy s = 0 := by
  obtain ⟨h1, h2, h3⟩ := h
  simp only [calculate_base_energy, base_consumption]
  rw [List.find?_cons_of_neg, List.find?_cons_of_neg, List.find?_cons_of_neg,
    List.find?_nil]
  · rfl
  · simpa using fun hh => h3 hh.symm
  · simpa using fun hh => h2 hh.symm
  · simpa using fun hh => h1 hh.symm

/-- Witness for C6 at the unrecognized housing string "Villa". -/
theorem C6_unknown_housing_zero_witness :
    (pyLower "Villa" ≠ "1bhk" ∧ pyLower "Villa" ≠ "2bhk" ∧ pyLower "Villa" ≠ "3bhk")
    ∧ calculate_base_energy "Villa" = 0 :=
  ⟨by decide, C6_unknown_housing_zero "Villa" (by decide)⟩

/-- C10: the base-load lookup is case-insensitive: it depends on the
housing string only through its lowercasing, and "1BHK", "1bhk" and
"1Bhk" all yield 2.4. -/
theorem C10_case_insensitive :
    (∀ s t : String, pyLower s = pyLower t →
        calculate_base_energy s = calculate_base_energy t)
    ∧ calculate_base_energy "1BHK" = 2.4
    ∧ calculate_base_energy "1bhk" = 2.4
    ∧ calculate_base_energy "1Bhk" = 2.4 := by
  refine ⟨fun s t h => ?_, by with_unfolding_all decide, by with_unfolding_all decide,
    by with_unfolding_all decide⟩
  simp only [calculate_base_energy, h]

/-- Witness for C10: "1BHK" and "1bhk" are case-variants and get the same
base energy. -/
theorem C10_case_insensitive_witness :
    pyLower "1BHK" = pyLower "1bhk"
    ∧ calculate_base_energy "1BHK" = calculate_base_energy "1bhk" :=
  ⟨by decide, C10_case_insensitive.1 "1BHK" "1bhk" (by decide)⟩

/-! ## History store (source lines 62-83) and save handler (154-178) -/

/-- save_daily_usage (source lines 62-83): scan the store for the first
entry whose date equals today; replace it in place if found, otherwise
append the new entry.  The current date string and the save timestamp,
which the source reads from the wall clock, are explicit parameters. -/
def save_daily_usage (today : String) (total_energy : ℚ) (user_data : UserData)
    (ts : String) (store : List UsageEntry) : List UsageEntry :=
  match store.findIdx? (fun entry => entry.date = today) with
  | some i => store.set i ⟨today, total_energy, user_data, ts⟩
  | none => store ++ [⟨today, total_energy, user_data, ts⟩]

/-- The same scan-replace-or-append loop written as structural recursion,
used to reason about save_daily_usage by induction. -/
def upsertGo (e : UsageEntry) : List UsageEntry → List UsageEntry
  | [] => [e]
  | x :: xs => if x.date = e.date then e :: xs else x :: upsertGo e xs

theorem save_daily_usage_eq_upsertGo (today : String) (total_energy : ℚ)
    (user_data : UserData) (ts : String) (store : List UsageEntry) :
    save_daily_usage today total_energy user_data ts store =
      upsertGo ⟨today, total_energy, user_data, ts⟩ store := by
  induction store with
  | nil => rfl
  | cons x xs ih =>
    by_cases hx : x.date = today
    · simp [save_daily_usage, upsertGo, List.findIdx?_cons, hx]
    · cases hfind : xs.findIdx? (fun entry => entry.date = today) with
      | none =>
        have ih2 : upsertGo ⟨today, total_energy, user_data, ts⟩ xs
            = xs ++ [⟨today, total_energy, user_data, ts⟩] := by
          rw [← ih]; simp [save_daily_usage, hfind]
        simp only [save_daily_usage, List.findIdx?_cons, hx, decide_False,
          Bool.false_eq_true, if_false, List.findIdx?_succ, hfind, Option.map_none']
        rw [upsertGo, if_neg hx, ih2]
        rfl
      | some i =>
        have ih2 : upsertGo ⟨today, total_energy, user_data, ts⟩ xs
            = xs.set i ⟨today, total_energy, user_data, ts⟩ := by
          rw [← ih]; simp [save_daily_usage, hfind]
        simp only [save_daily_usage, List.findIdx?_cons, hx, decide_False,
          Bool.false_eq_true, if_false, List.findIdx?_succ, hfind, Option.map_some']
        rw [upsertGo, if_neg hx, ih2]
        rfl

theorem upsertGo_dates_sub (e : UsageEntry) (l : List UsageEntry) (d : String)
    (h : d ∈ (upsertGo e l).map UsageEntry.date) :
    d = e.date ∨ d ∈ l.map UsageEntry.date := by
  induction l with
  | nil => simpa [upsertGo] using h
  | cons x xs ih =>
    by_cases hx : x.date = e.date
    · rw [upsertGo, if_pos hx] at h
      simp only [List.map_cons, List.mem_cons] at h ⊢
      rcases h with h | h
      · exact Or.inl h
      · exact Or.inr (Or.inr h)
    · rw [upsertGo, if_neg hx] at h
      simp only [List.map_cons, List.mem_cons] at h ⊢
      rcases h with h | h
      · exact Or.inr (Or.inl h)
      · rcases ih h with h | h
        · exact Or.inl h
        · exact Or.inr (Or.inr h)

theorem upsertGo_dates_nodup (e : UsageEntry) (l : List UsageEntry)
    (h : (l.map UsageEntry.date).Nodup) :
    ((upsertGo e l).map UsageEntry.date).Nodup := by
  induction l with
  | nil => simp [upsertGo]
  | cons x xs ih =>
    simp only [List.map_cons, List.nodup_cons] at h
    by_cases hx : x.date = e.date
    · rw [upsertGo, if_pos hx]
      simp only [List.map_cons, List.nodup_cons]
      exact ⟨hx ▸ h.1, h.2⟩
    · rw [upsertGo, if_neg hx]
      simp only [List.map_cons, List.nodup_cons]
      refine ⟨fun hmem => ?_, ih h.2⟩
      rcases upsertGo_dates_sub e xs x.date hmem with hh | hh
      · exact hx hh
      · exact h.1 hh

theorem upsertGo_filter_eq (e : UsageEntry) (l : List UsageEntry)
    (h : (l.map UsageEntry.date).Nodup) :
    (upsertGo e l).filter (fun x => x.date = e.date) = [e] := by
  induction l with
  | nil => simp [upsertGo]
  | cons x xs ih =>
    simp only [List.map_cons, List.nodup_cons] at h
    by_cases hx : x.date = e.date
    · rw [upsertGo, if_pos hx]
      rw [List.filter_cons_of_pos (by simp)]
      have hnil : xs.filter (fun x => x.date = e.date) = [] := by
        rw [List.filter_eq_nil_iff]
        intro a ha
        simp only [decide_eq_true_eq]
        intro had
        exact h.1 (by rw [hx, ← had]; exact List.mem_map_of_mem UsageEntry.date ha)
      rw [hnil]
    · rw [upsertGo, if_neg hx]
      rw [List.filter_cons_of_neg (by simpa using hx)]
      exact ih h.2

/-- One recorded save interaction: the wall-clock date string, the computed
total energy, the profile snapshot, and the save timestamp. -/
structure SaveOp where
  today : String
  total_energy : ℚ
  user_data : UserData
  timestamp : String

/-- The history store produced by running a sequence of saves from the
empty session store (source line 18 initializes usage_data to []). -/
def runSaves (ops : List SaveOp) : List UsageEntry :=
  ops.foldl
    (fun store op =>
      save_daily_usage op.today op.total_energy op.user_data op.timestamp store) []

theorem runSaves_from_nodup (init : List UsageEntry) (ops : List SaveOp)
    (h : (init.map UsageEntry.date).Nodup) :
    ((ops.foldl
        (fun store op =>
          save_daily_usage op.today op.total_energy op.user_data op.timestamp store)
        init).map UsageEntry.date).Nodup := by
  induction ops generalizing init with
  | nil => exact h
  | cons op ops ih =>
    rw [List.foldl_cons]
    refine ih _ ?_
    rw [save_daily_usage_eq_upsertGo]
    exact upsertGo_dates_nodup _ _ h

/-- C2: starting from the empty history store, any sequence of saves
leaves at most one entry per calendar date; a further save on a date
replaces the entry for that date, and two saves with the same date leave
exactly one entry for it, carrying the second save's values. -/
theorem C2_upsert_by_date (ops : List SaveOp) :
    ((runSaves ops).map UsageEntry.date).Nodup
    ∧ ∀ (d : String) (te1 te2 : ℚ) (ud1 ud2 : UserData) (ts1 ts2 : String),
        (save_daily_usage d te2 ud2 ts2
            (save_daily_usage d te1 ud1 ts1 (runSaves ops))).filter
          (fun x => x.date = d) = [⟨d, te2, ud2, ts2⟩] := by
  have hnd : ((runSaves ops).map UsageEntry.date).Nodup :=
    runSaves_from_nodup [] ops (by simp)
  refine ⟨hnd, fun d te1 te2 ud1 ud2 ts1 ts2 => ?_⟩
  rw [save_daily_usage_eq_upsertGo, save_daily_usage_eq_upsertGo]
  exact upsertGo_filter_eq ⟨d, te2, ud2, ts2⟩ _
    (upsertGo_dates_nodup ⟨d, te1, ud1, ts1⟩ _ hnd)

/-- The ambient Streamlit session state the program mutates: the usage
history and the last saved user profile (source lines 17-21, initialized
to an empty list and an empty dict). -/
structure AppState where
  usage_data : List UsageEntry
  user_profile : Option UserData
deriving DecidableEq

/-- Outcome displayed by the save button handler. -/
inductive SaveOutcome where
  | saved (msg : String)
  | rejected (msg : String)
deriving DecidableEq

/-- The save button handler (source lines 154-178): if the name field is
non-empty (Python truthiness of the string), build the profile dict,
overwrite the stored profile, upsert the usage entry and show a success
message; otherwise show an error and touch nothing. -/
def saveButtonClick (st : AppState) (name : String) (age : ℕ)
    (city area flat_tenement facility : String)
    (ac fridge washing_machine tv microwave water_heater : Bool)
    (total_energy : ℚ) (today ts : String) : AppState × SaveOutcome :=
  if name ≠ "" then
    let user_data : UserData :=
      ⟨name, age, city, area, flat_tenement, facility, ac, fridge,
        washing_machine, tv, microwave, water_heater⟩
    (⟨save_daily_usage today total_energy user_data ts st.usage_data,
        some user_data⟩,
      .saved "✅ Usage data saved successfully!")
  else
    (st, .rejected "❌ Please enter your name first!")

/-- C4: a save attempted with an empty name is rejected with a
user-visible error message, and neither the history store nor the stored
user profile changes. -/
theorem C4_empty_name_rejected (st : AppState) (name : String) (age : ℕ)
    (city area flat_tenement facility : String)
    (ac fridge washing_machine tv microwave water_heater : Bool)
    (total_energy : ℚ) (today ts : String) (hname : name = "") :
    (saveButtonClick st name age city area flat_tenement facility ac fridge
        washing_machine tv microwave water_heater total_energy today ts).1.usage_data
      = st.usage_data
    ∧ (saveButtonClick st name age city area flat_tenement facility ac fridge
        washing_machine tv microwave water_heater total_energy today ts).1.user_profile
      = st.user_profile
    ∧ (saveButtonClick st name age city area flat_tenement facility ac fridge
        washing_machine tv microwave water_heater total_energy today ts).2
      = .rejected "❌ Please enter your name first!" := by
  subst hname
  simp [saveButtonClick]

/-- Witness for C4: a concrete rejected save on a non-trivial state. -/
theorem C4_empty_name_rejected_witness :
    ("" : String) = ""
    ∧ (saveButtonClick ⟨[⟨"2024-01-01", 10, ⟨"a", 30, "c", "r", "Flat", "1BHK",
          false, false, false, false, false, false⟩, "t1"⟩], none⟩ "" 30 "c" "r"
        "Flat" "1BHK" true false false false false false 14.4 "2024-01-02"
        "t2").1.usage_data
      = [⟨"2024-01-01", 10, ⟨"a", 30, "c", "r", "Flat", "1BHK",
          false, false, false, false, false, false⟩, "t1"⟩] :=
  ⟨rfl,
    (C4_empty_name_rejected ⟨[⟨"2024-01-01", 10, ⟨"a", 30, "c", "r", "Flat",
        "1BHK", false, false, false, false, false, false⟩, "t1"⟩], none⟩ "" 30
      "c" "r" "Flat" "1BHK" true false false false false false 14.4
      "2024-01-02" "t2" rfl).1⟩

/-! ## Calendar dates and the weekly aggregator (source lines 85-98)

Timestamps are rationals counting days since 1970-01-01; the integer part
is the calendar day, the fractional part the time of day.  A stored
"YYYY-MM-DD" string parses (as pandas' to_datetime does) to the day
number of its midnight, computed with the standard civil-calendar day
count. -/

/-- Day number of a proleptic Gregorian date (days since 1970-01-01),
the standard days-from-civil computation. -/
def daysFromCivil (y m d : ℕ) : ℤ :=
  let yAdj : ℤ := if m ≤ 2 then (y : ℤ) - 1 else (y : ℤ)
  let era : ℤ := (if 0 ≤ yAdj then yAdj else yAdj - 399) / 400
  let yoe : ℤ := yAdj - era * 400
  let mp : ℤ := ((m : ℤ) + 9) % 12
  let doy : ℤ := (153 * mp + 2) / 5 + (d : ℤ) - 1
  let doe : ℤ := yoe * 365 + yoe / 4 - yoe / 100 + doy
  era * 146097 + doe - 719468

/-- Split a character list at the dash separators. -/
def splitDashes : List Char → List (List Char)
  | [] => [[]]
  | c :: cs =>
    if c = '-' then [] :: splitDashes cs
    else
      match splitDashes cs with
      | [] => [[c]]
      | h :: t => (c :: h) :: t

/-- Decimal parse of a digit string. -/
def digitsToNat? (l : List Char) : Option ℕ :=
  if l = [] then none
  else
    l.foldl
      (fun acc c =>
        match acc with
        | none => none
        | some n => if c.isDigit then some (n * 10 + (c.toNat - 48)) else none)
      (some 0)

/-- Parse an ISO "YYYY-MM-DD" date string to its day number (the midnight
that pandas' to_datetime produces for it). -/
def parseDate (s : String) : Option ℤ :=
  match splitDashes s.data with
  | [ys, ms, ds] =>
    match digitsToNat? ys, digitsToNat? ms, digitsToNat? ds with
    | some y, some m, some d => some (daysFromCivil y m d)
    | _, _, _ => none
  | _ => none

/-- Day number of a stored date string (all dates the program stores are
valid ISO dates, so the default is never taken on reachable stores). -/
def dateNum (s : String) : ℤ := (parseDate s).getD 0

/-- get_weekly_data (source lines 85-98): start_date is now minus 7 days
(a full timestamp, time of day included); the store is filtered to the
entries whose parsed date is at or after start_date — there is no upper
bound — and sorted ascending by date.  The wall-clock instant the source
reads is the explicit parameter now. -/
def get_weekly_data (store : List UsageEntry) (now : ℚ) : List UsageEntry :=
  let start_date : ℚ := now - 7
  (store.filter (fun e => decide (start_date ≤ (dateNum e.date : ℚ)))).mergeSort
    (fun a b => decide (dateNum a.date ≤ dateNum b.date))

/-- The calendar day of a timestamp (what strftime "%Y-%m-%d" keeps). -/
def dayOf (t : ℚ) : ℤ := ⌊t⌋

/-- Modelled from the spec: membership of a calendar day in the weekly
window the spec describes, "date ∈ [now − 7 days, now], inclusive of
now's day", read at day granularity. -/
def inSpecWeeklyWindow (now : ℚ) (d : ℤ) : Bool :=
  decide (dayOf now - 7 ≤ d) && decide (d ≤ dayOf now)

/-- A profile snapshot used in concrete stores. -/
def sampleUser : UserData :=
  ⟨"a", 30, "c", "r", "Flat", "2BHK", true, true, false, false, false, false⟩

/-- C3 counterexample: at noon of 2024-01-15 (timestamp 19737.5 days), an
entry dated 2024-01-08 — exactly 7 days earlier, inside the spec's
inclusive weekly window — is dropped by get_weekly_data, because the code
compares the entry's midnight against now − 7 days with the time of day
still in it. -/
theorem C3_weekly_window_counterexample :
    inSpecWeeklyWindow (19737 + (1 : ℚ)/2) (dateNum "2024-01-08") = true
    ∧ get_weekly_data [⟨"2024-01-08", 10, sampleUser, "t"⟩]
        (19737 + (1 : ℚ)/2) = [] := by
  constructor
  · with_unfolding_all decide
  · have hf : ([⟨"2024-01-08", (10 : ℚ), sampleUser, "t"⟩] : List UsageEntry).filter
        (fun e => decide ((19737 + (1 : ℚ)/2) - 7 ≤ (dateNum e.date : ℚ))) = [] := by
      with_unfolding_all decide
    simp only [get_weekly_data]
    rw [hf, List.mergeSort_nil]

/-- C3 as amended: get_weekly_data returns exactly the entries whose
parsed date (midnight) is at or after now − 7 days — with no upper bound,
so later dates are never excluded — sorted ascending by date. -/
theorem C3_weekly_slice_filter_sorted (store : List UsageEntry) (now : ℚ) :
    List.Perm (get_weekly_data store now)
        (store.filter (fun e => decide (now - 7 ≤ (dateNum e.date : ℚ))))
    ∧ List.Pairwise (fun a b => dateNum a.date ≤ dateNum b.date)
        (get_weekly_data store now)
    ∧ ∀ e : UsageEntry, e ∈ get_weekly_data store now ↔
        e ∈ store ∧ now - 7 ≤ (dateNum e.date : ℚ) := by
  simp only [get_weekly_data]
  have hperm :=
    List.mergeSort_perm
      (store.filter (fun e => decide (now - 7 ≤ (dateNum e.date : ℚ))))
      (fun a b => decide (dateNum a.date ≤ dateNum b.date))
  refine ⟨hperm, ?_, ?_⟩
  · have hs := @List.sorted_mergeSort UsageEntry
        (fun a b => decide (dateNum a.date ≤ dateNum b.date))
        (fun a b c hab hbc => by
          simp only [decide_eq_true_eq] at hab hbc ⊢
          exact le_trans hab hbc)
        (fun a b => by
          simp only [Bool.or_eq_true, decide_eq_true_eq]
          exact le_total _ _)
        (store.filter (fun e => decide (now - 7 ≤ (dateNum e.date : ℚ))))
    exact hs.imp (fun h => by simpa using h)
  · intro e
    rw [hperm.mem_iff, List.mem_filter]
    simp only [decide_eq_true_eq]

/-- C7 counterexample: a store whose only entry is dated 2024-01-20,
queried at midnight of 2024-01-15 (timestamp 19737): no entry's date lies
in the spec's weekly window [now − 7 days, now], yet get_weekly_data
returns the future-dated entry because the code has no upper cutoff. -/
theorem C7_weekly_empty_counterexample :
    (∀ e ∈ ([⟨"2024-01-20", 10, sampleUser, "t"⟩] : List UsageEntry),
        inSpecWeeklyWindow 19737 (dateNum e.date) = false)
    ∧ get_weekly_data [⟨"2024-01-20", 10, sampleUser, "t"⟩] 19737
      = [⟨"2024-01-20", 10, sampleUser, "t"⟩] := by
  constructor
  · with_unfolding_all decide
  · have hf : ([⟨"2024-01-20", (10 : ℚ), sampleUser, "t"⟩] : List UsageEntry).filter
        (fun e => decide ((19737 : ℚ) - 7 ≤ (dateNum e.date : ℚ)))
        = [⟨"2024-01-20", (10 : ℚ), sampleUser, "t"⟩] := by
      with_unfolding_all decide
    simp only [get_weekly_data]
    rw [hf, List.mergeSort_singleton]

/-- C7 as amended: the weekly slice of the empty store is empty (and no
error path exists, the function is total); and whenever no entry's parsed
date is at or after now − 7 days, the slice is empty. -/
theorem C7_weekly_empty_cases (store : List UsageEntry) (now : ℚ) :
    get_weekly_data [] now = []
    ∧ ((∀ e ∈ store, ¬ (now - 7 ≤ (dateNum e.date : ℚ))) →
        get_weekly_data store now = []) := by
  constructor
  · simp only [get_weekly_data, List.filter_nil]
    rw [List.mergeSort_nil]
  · intro h
    have hf : store.filter (fun e => decide (now - 7 ≤ (dateNum e.date : ℚ))) = [] := by
      rw [List.filter_eq_nil_iff]
      intro a ha
      simpa using h a ha
    simp only [get_weekly_data]
    rw [hf, List.mergeSort_nil]

/-- Witness for C7 as amended: a store whose only entry is two weeks old
yields an empty weekly slice. -/
theorem C7_weekly_empty_cases_witness :
    (∀ e ∈ ([⟨"2024-01-01", 10, sampleUser, "t"⟩] : List UsageEntry),
        ¬ ((19737 : ℚ) - 7 ≤ (dateNum e.date : ℚ)))
    ∧ get_weekly_data [⟨"2024-01-01", 10, sampleUser, "t"⟩] 19737 = [] :=
  ⟨by with_unfolding_all decide,
    (C7_weekly_empty_cases [⟨"2024-01-01", 10, sampleUser, "t"⟩] 19737).2
      (by with_unfolding_all decide)⟩

/-! ## Exporter (source lines 280-322) -/

/-- One CSV export row, fields in the column order of the export dict
built at source lines 287-300. -/
structure ExportRow where
  date : String
  total_energy : ℚ
  cost : ℚ
  name : String
  city : String
  housing_type : String
  ac : Bool
  fridge : Bool
  washing_machine : Bool
  tv : Bool
  microwave : Bool
  water_heater : Bool
deriving DecidableEq

/-- The column headers, in the order the export dict lists them
(source lines 288-299). -/
def csvColumns : List String :=
  ["Date", "Total Energy (kWh)", "Cost (₹)", "Name", "City", "Housing Type",
   "AC", "Fridge", "Washing Machine", "TV", "Microwave", "Water Heater"]

/-- The export row built from one usage entry (source lines 287-300);
the cost is recomputed as total_energy * 6 at export time. -/
def exportRow (entry : UsageEntry) : ExportRow :=
  ⟨entry.date, entry.total_energy, entry.total_energy * 6,
    entry.user_data.name, entry.user_data.city, entry.user_data.facility,
    entry.user_data.ac, entry.user_data.fridge, entry.user_data.washing_machine,
    entry.user_data.tv, entry.user_data.microwave, entry.user_data.water_heater⟩

/-- export_data (source lines 285-301): one row per stored entry. -/
def export_data (store : List UsageEntry) : List ExportRow := store.map exportRow

/-- C8: the CSV export has one row per usage entry (same count, row i
from entry i), the fixed column order Date, TotalEnergyKWh, Cost, Name,
City, HousingType, AC, Fridge, WashingMachine, TV, Microwave,
WaterHeater, and each row's cost is the entry's total energy times 6.0,
recomputed at export time (the stored entry carries no cost field). -/
theorem C8_csv_export (store : List UsageEntry) :
    (export_data store).length = store.length
    ∧ (∀ i : ℕ, (export_data store)[i]? = (store[i]?).map exportRow)
    ∧ (∀ entry : UsageEntry, (exportRow entry).cost = entry.total_energy * 6)
    ∧ csvColumns = ["Date", "Total Energy (kWh)", "Cost (₹)", "Name", "City",
        "Housing Type", "AC", "Fridge", "Washing Machine", "TV", "Microwave",
        "Water Heater"] :=
  ⟨List.length_map store exportRow,
    fun i => List.getElem?_map exportRow store i,
    fun _ => rfl, rfl⟩

/-! ## JSON export (source lines 316-322)

json.dumps(usage_data, indent=2) serializes the in-memory entries
structurally; json.loads of that text restores the same structure (the
text layer round-trips every value exactly).  The export is modelled at
the level of the JSON value tree. -/

/-- A JSON value. -/
inductive JValue where
  | jnull : JValue
  | jbool : Bool → JValue
  | jnum : ℚ → JValue
  | jstr : String → JValue
  | jarr : List JValue → JValue
  | jobj : List (String × JValue) → JValue

/-- The JSON object for a stored profile dict. -/
def userDataToJson (u : UserData) : JValue :=
  .jobj [("name", .jstr u.name), ("age", .jnum u.age), ("city", .jstr u.city),
    ("area", .jstr u.area), ("flat_tenement", .jstr u.flat_tenement),
    ("facility", .jstr u.facility), ("ac", .jbool u.ac),
    ("fridge", .jbool u.fridge), ("washing_machine", .jbool u.washing_machine),
    ("tv", .jbool u.tv), ("microwave", .jbool u.microwave),
    ("water_heater", .jbool u.water_heater)]

/-- The JSON object for one usage entry (the dict of source lines 66-71). -/
def entryToJson (e : UsageEntry) : JValue :=
  .jobj [("date", .jstr e.date), ("total_energy", .jnum e.total_energy),
    ("user_data", userDataToJson e.user_data), ("timestamp", .jstr e.timestamp)]

/-- json_data (source line 316): the serialized history store. -/
def json_data (store : List UsageEntry) : JValue :=
  .jarr (store.map entryToJson)

/-- Field lookup in a parsed JSON object. -/
def lookupField (fields : List (String × JValue)) (key : String) : Option JValue :=
  (fields.find? (fun p => p.1 = key)).map Prod.snd

/-- Read back the date and total energy of one parsed entry. -/
def decodeDateEnergy (j : JValue) : Option (String × ℚ) :=
  match j with
  | .jobj fields =>
    match lookupField fields "date", lookupField fields "total_energy" with
    | some (.jstr d), some (.jnum t) => some (d, t)
    | _, _ => none
  | _ => none

/-- Read back the dates and total energies of a parsed export. -/
def decodeStore (j : JValue) : Option (List (String × ℚ)) :=
  match j with
  | .jarr items => items.mapM decodeDateEnergy
  | _ => none

/-- C9: parsing the JSON export back reproduces exactly the dates and
totalEnergyKWh values of the store before export — here exactly, which
subsumes the claimed floating-point tolerance, since the arithmetic is
modelled exactly. -/
theorem C9_json_roundtrip (store : List UsageEntry) :
    decodeStore (json_data store)
      = some (store.map (fun e => (e.date, e.total_energy))) := by
  simp only [decodeStore, json_data]
  induction store with
  | nil => rfl
  | cons e es ih =>
    simp only [List.map_cons, List.mapM_cons, ih]
    rfl

end ElecCalc
